import Mathlib

/-!
Verification of the dgfacade worker-side dispatch engine.

This file gives a shallow embedding, in Lean 4, of the Python sources

  * src/python/dgfacade_worker.py   (frame codec, command router,
                                     cached-instance execute path)
  * src/python/dg_gateway.py        (Py4J RPC delegate, per-request
                                     handler lifecycle)
  * src/python/dg_handler.py        (DGHandler base-class lifecycle)
  * src/python/handlers/transform_handler.py (SHA256 and JSON_FLATTEN ops)

Python dictionaries produced by json.loads are modelled as insertion-ordered
association lists with string keys; Python exceptions are modelled with the
Except monad, recording the exception class name so that class-filtered
except clauses can be translated faithfully.
-/

namespace DGFacade

/-- Model of a JSON-compatible Python value (the payloads travelling through
the dispatch engine).  Objects are insertion-ordered association lists, as
produced by json.loads.  JSON numbers are modelled as integers; none of the
verified code paths computes with fractional numbers. -/
inductive Json where
  | null : Json
  | bool : Bool → Json
  | num : Int → Json
  | str : String → Json
  | arr : List Json → Json
  | obj : List (String × Json) → Json

/-- Model of a Python exception: the exception class name and its message. -/
structure PyErr where
  kind : String
  msg : String

/-- Python d.get(k, default) on a dict modelled as an association list:
the first binding of the key, or the default. -/
def pyGetD (fields : List (String × Json)) (k : String) (d : Json) : Json :=
  match fields.find? (fun p => p.1 = k) with
  | some p => p.2
  | none => d

/-- Python k in d (key membership test). -/
def pyHasKey (fields : List (String × Json)) (k : String) : Bool :=
  fields.any (fun p => p.1 = k)

/-- Python d[k] = v on a dict modelled as an association list: replace the
binding in place when the key exists, otherwise append (insertion order). -/
def dictInsert (items : List (String × Json)) (k : String) (v : Json) :
    List (String × Json) :=
  if pyHasKey items k then
    items.map (fun p => if p.1 = k then (k, v) else p)
  else
    items ++ [(k, v)]

/-- Python items.update(other): insert every binding of other, in order. -/
def dictUpdate (items other : List (String × Json)) : List (String × Json) :=
  other.foldl (fun acc p => dictInsert acc p.1 p.2) items

/-- Python v == s where v is a parsed JSON value and s a string literal:
true exactly when v is that string. -/
def jsonEqStr (v : Json) (s : String) : Bool :=
  match v with
  | Json.str t => t = s
  | _ => false

/-- Whether a value is a Python dict (isinstance(v, dict)). -/
def Json.isObj : Json → Bool
  | Json.obj _ => true
  | _ => false

/-- struct.pack of one byte as two lowercase hex digits would need hex
helpers later; here: decimal rendering of a natural number is toString. -/
def natToString (n : Nat) : String := toString n

mutual

/-- Python str(v) for a parsed JSON value, as interpolated by f-strings:
strings render bare, None/True/False use Python spelling, containers render
with Python repr conventions.  Only its existence matters to the claims. -/
def pyStr : Json → String
  | Json.null => "None"
  | Json.bool true => "True"
  | Json.bool false => "False"
  | Json.num n => toString n
  | Json.str s => s
  | Json.arr xs => "[" ++ pyStrList xs ++ "]"
  | Json.obj fs => "\x7b" ++ pyStrFields fs ++ "\x7d"

def pyStrList : List Json → String
  | [] => ""
  | [x] => pyReprVal x
  | x :: xs => pyReprVal x ++ ", " ++ pyStrList xs

def pyStrFields : List (String × Json) → String
  | [] => ""
  | [(k, v)] => "\x27" ++ k ++ "\x27: " ++ pyReprVal v
  | (k, v) :: fs => "\x27" ++ k ++ "\x27: " ++ pyReprVal v ++ ", " ++ pyStrFields fs

/-- Python repr of a value nested inside a container (strings quoted). -/
def pyReprVal : Json → String
  | Json.str s => "\x27" ++ s ++ "\x27"
  | v => pyStr v

end

/-! ## Frame codec: 4-byte big-endian length prefix (struct.pack / unpack ">I") -/

/-- struct.pack(">I", n): the four big-endian bytes of a 32-bit length. -/
def pack32 (n : Nat) : List Nat :=
  [n / 16777216 % 256, n / 65536 % 256, n / 256 % 256, n % 256]

/-- struct.unpack(">I", b)[0] on four bytes. -/
def unpack32 (b0 b1 b2 b3 : Nat) : Nat :=
  ((b0 * 256 + b1) * 256 + b2) * 256 + b3

/-! ## Model of the Python json module (stdlib, external to the repository)

json.dumps with its default arguments (ensure_ascii=True, separators
(", ", ": ")) and json.loads.  dumps output is pure ASCII. -/

/-- One lowercase hex digit. -/
def hexDigitChar (n : Nat) : Char :=
  if n < 10 then Char.ofNat (48 + n) else Char.ofNat (87 + n % 16)

/-- Four lowercase hex digits of n < 65536 (the uXXXX escape body). -/
def hex4 (n : Nat) : String :=
  String.mk [hexDigitChar (n / 4096 % 16), hexDigitChar (n / 256 % 16),
             hexDigitChar (n / 16 % 16), hexDigitChar (n % 16)]

/-- json.dumps escaping of one character (ensure_ascii behaviour: short
escapes for the usual controls, uXXXX for other controls and all non-ASCII,
surrogate pairs above the BMP). -/
def escChar (c : Char) : String :=
  if c = Char.ofNat 34 then "\\\""
  else if c = Char.ofNat 92 then "\\\\"
  else if c = Char.ofNat 10 then "\\n"
  else if c = Char.ofNat 9 then "\\t"
  else if c = Char.ofNat 13 then "\\r"
  else if c = Char.ofNat 8 then "\\b"
  else if c = Char.ofNat 12 then "\\f"
  else if c.toNat < 32 then "\\u" ++ hex4 c.toNat
  else if c.toNat < 128 then String.singleton c
  else if c.toNat < 65536 then "\\u" ++ hex4 c.toNat
  else
    "\\u" ++ hex4 (55296 + (c.toNat - 65536) / 1024) ++
    "\\u" ++ hex4 (56320 + (c.toNat - 65536) % 1024)

/-- json.dumps of a string, quotes included. -/
def dumpsString (s : String) : String :=
  "\"" ++ String.join (s.data.map escChar) ++ "\""

mutual

/-- json.dumps with Python defaults: item separator ", ", key separator ": ". -/
def Json.dumps : Json → String
  | Json.null => "null"
  | Json.bool true => "true"
  | Json.bool false => "false"
  | Json.num n => toString n
  | Json.str s => dumpsString s
  | Json.arr xs => "[" ++ dumpsList xs ++ "]"
  | Json.obj fs => "\x7b" ++ dumpsFields fs ++ "\x7d"

def dumpsList : List Json → String
  | [] => ""
  | [x] => Json.dumps x
  | x :: xs => Json.dumps x ++ ", " ++ dumpsList xs

def dumpsFields : List (String × Json) → String
  | [] => ""
  | [(k, v)] => dumpsString k ++ ": " ++ Json.dumps v
  | (k, v) :: fs => dumpsString k ++ ": " ++ Json.dumps v ++ ", " ++ dumpsFields fs

end

/-- JSON insignificant whitespace. -/
def isJsonWs (c : Char) : Bool :=
  c = Char.ofNat 32 || c = Char.ofNat 9 || c = Char.ofNat 10 || c = Char.ofNat 13

def skipWs : List Char → List Char
  | [] => []
  | c :: cs => if isJsonWs c then skipWs cs else c :: cs

def isDigitCh (c : Char) : Bool :=
  48 ≤ c.toNat && c.toNat ≤ 57

def hexVal (c : Char) : Option Nat :=
  if 48 ≤ c.toNat && c.toNat ≤ 57 then some (c.toNat - 48)
  else if 97 ≤ c.toNat && c.toNat ≤ 102 then some (c.toNat - 87)
  else if 65 ≤ c.toNat && c.toNat ≤ 70 then some (c.toNat - 55)
  else none

/-- Decimal digits to a natural number. -/
def digitsToNat (ds : List Char) : Nat :=
  ds.foldl (fun a c => a * 10 + (c.toNat - 48)) 0

/-- Integer literal parser: at least one digit, and the grammar forms that
would continue into a float or exponent are rejected (unmodelled). -/
def parseNat (cs : List Char) : Option (Nat × List Char) :=
  let digits := cs.takeWhile isDigitCh
  let rest := cs.dropWhile isDigitCh
  if digits.isEmpty then none
  else
    match rest with
    | '.' :: _ => none
    | 'e' :: _ => none
    | 'E' :: _ => none
    | _ => some (digitsToNat digits, rest)

mutual

/-- json.loads, recursive-descent value parser (fuel-indexed; fuel only
bounds the recursion, the grammar is the JSON grammar restricted to integer
numbers, which is the only number form the verified code paths produce). -/
def parseVal : Nat → List Char → Option (Json × List Char)
  | 0, _ => none
  | fuel + 1, cs =>
    match skipWs cs with
    | 'n' :: 'u' :: 'l' :: 'l' :: rest => some (Json.null, rest)
    | 't' :: 'r' :: 'u' :: 'e' :: rest => some (Json.bool true, rest)
    | 'f' :: 'a' :: 'l' :: 's' :: 'e' :: rest => some (Json.bool false, rest)
    | '"' :: rest => parseStr fuel [] rest
    | '[' :: rest =>
      match skipWs rest with
      | ']' :: rest2 => some (Json.arr [], rest2)
      | _ => parseElems fuel rest []
    | '\x7b' :: rest =>
      match skipWs rest with
      | '\x7d' :: rest2 => some (Json.obj [], rest2)
      | _ => parseMembers fuel rest []
    | '-' :: rest =>
      match parseNat rest with
      | some (n, rest2) => some (Json.num (-(n : Int)), rest2)
      | none => none
    | c :: rest =>
      if isDigitCh c then
        match parseNat (c :: rest) with
        | some (n, rest2) => some (Json.num (n : Int), rest2)
        | none => none
      else none
    | [] => none

/-- String body parser: cs is positioned after the opening quote. -/
def parseStr : Nat → List Char → List Char → Option (Json × List Char)
  | 0, _, _ => none
  | _ + 1, acc, '"' :: rest => some (Json.str (String.mk acc.reverse), rest)
  | fuel + 1, acc, '\\' :: e :: rest =>
    match e with
    | '"' => parseStr fuel ('"' :: acc) rest
    | '\\' => parseStr fuel ('\\' :: acc) rest
    | '/' => parseStr fuel ('/' :: acc) rest
    | 'b' => parseStr fuel (Char.ofNat 8 :: acc) rest
    | 'f' => parseStr fuel (Char.ofNat 12 :: acc) rest
    | 'n' => parseStr fuel (Char.ofNat 10 :: acc) rest
    | 'r' => parseStr fuel (Char.ofNat 13 :: acc) rest
    | 't' => parseStr fuel (Char.ofNat 9 :: acc) rest
    | 'u' =>
      match rest with
      | h1 :: h2 :: h3 :: h4 :: rest2 =>
        match hexVal h1, hexVal h2, hexVal h3, hexVal h4 with
        | some a, some b, some c, some d =>
          let v := ((a * 16 + b) * 16 + c) * 16 + d
          if 55296 ≤ v && v ≤ 56319 then
            match rest2 with
            | '\\' :: 'u' :: g1 :: g2 :: g3 :: g4 :: rest3 =>
              match hexVal g1, hexVal g2, hexVal g3, hexVal g4 with
              | some a2, some b2, some c2, some d2 =>
                let w := ((a2 * 16 + b2) * 16 + c2) * 16 + d2
                if 56320 ≤ w && w ≤ 57343 then
                  parseStr fuel
                    (Char.ofNat (65536 + (v - 55296) * 1024 + (w - 56320)) :: acc) rest3
                else none
              | _, _, _, _ => none
            | _ => none
          else if 56320 ≤ v && v ≤ 57343 then none
          else parseStr fuel (Char.ofNat v :: acc) rest2
        | _, _, _, _ => none
      | _ => none
    | _ => none
  | fuel + 1, acc, c :: rest => parseStr fuel (c :: acc) rest
  | _, _, [] => none

/-- Array elements, after the opening bracket when the array is nonempty. -/
def parseElems : Nat → List Char → List Json → Option (Json × List Char)
  | 0, _, _ => none
  | fuel + 1, cs, acc =>
    match parseVal fuel cs with
    | none => none
    | some (v, rest) =>
      match skipWs rest with
      | ',' :: rest2 => parseElems fuel rest2 (v :: acc)
      | ']' :: rest2 => some (Json.arr (v :: acc).reverse, rest2)
      | _ => none

/-- Object members, after the opening brace when the object is nonempty. -/
def parseMembers : Nat → List Char → List (String × Json) →
    Option (Json × List Char)
  | 0, _, _ => none
  | fuel + 1, cs, acc =>
    match skipWs cs with
    | '"' :: rest =>
      match parseStr fuel [] rest with
      | some (Json.str k, rest2) =>
        match skipWs rest2 with
        | ':' :: rest3 =>
          match parseVal fuel rest3 with
          | none => none
          | some (v, rest4) =>
            match skipWs rest4 with
            | ',' :: rest5 => parseMembers fuel rest5 ((k, v) :: acc)
            | '\x7d' :: rest5 => some (Json.obj ((k, v) :: acc).reverse, rest5)
            | _ => none
        | _ => none
      | _ => none
    | _ => none

end

/-- json.loads on a string: parse one value, then only whitespace may remain. -/
def loads (s : String) : Option Json :=
  match parseVal (4 * s.length + 16) s.data with
  | some (j, rest) => if skipWs rest = [] then some j else none
  | none => none

/-- Python json.loads raises TypeError when its argument is not
str / bytes / bytearray, and JSONDecodeError on malformed text.  This models
the call on an arbitrary value taken out of the command envelope. -/
def pyLoads (v : Json) : Except PyErr Json :=
  match v with
  | Json.str s =>
    match loads s with
    | some j => Except.ok j
    | none => Except.error ⟨"JSONDecodeError", "Expecting value: line 1 column 1 (char 0)"⟩
  | _ => Except.error ⟨"TypeError", "the JSON object must be str, bytes or bytearray"⟩

/-! ## Frame codec (dgfacade_worker.py: read_message / write_message)

The TCP byte stream is modelled as a list of byte values; conn.recv(n)
returns the next min(n, available) bytes of the stream.  Payload text is
the ASCII produced by json.dumps (ensure_ascii), on which UTF-8 encoding
and decoding are the identity on code points. -/

/-- payload.encode("utf-8") for the ASCII output of json.dumps. -/
def strToBytes (s : String) : List Nat :=
  s.data.map Char.toNat

/-- bytes.decode("utf-8") for ASCII payloads. -/
def bytesToStr (bs : List Nat) : String :=
  String.mk (bs.map Char.ofNat)

/-- Outcome of read_message: None (stream closed early, or a rejected
length prefix), an exception escaping it (malformed JSON text), or a
decoded message. -/
inductive ReadResult where
  | eof : ReadResult
  | exn : PyErr → ReadResult
  | msg : Json → ReadResult

/-- The accumulation loop of read_message: repeatedly
conn.recv(min(remaining, 65536)) until the declared length is satisfied;
an empty chunk (closed stream) yields None. -/
def readChunks (stream : List Nat) (remaining : Nat) : Option (List Nat) :=
  if remaining = 0 then some []
  else if stream.isEmpty then none
  else
    let k := min (min remaining 65536) stream.length
    match readChunks (stream.drop k) (remaining - k) with
    | none => none
    | some rest => some (stream.take k ++ rest)
termination_by remaining
decreasing_by
  rename_i hrem hstream
  have hlen : 0 < stream.length := by
    cases stream with
    | nil => simp at hstream
    | cons a l => simp
  omega

/-- read_message (dgfacade_worker.py lines 191-207): a 4-byte big-endian
length prefix, rejected when zero or above the 50 MiB cap, then the
payload, UTF-8-decoded and passed to json.loads. -/
def read_message (stream : List Nat) : ReadResult :=
  match stream with
  | b0 :: b1 :: b2 :: b3 :: rest =>
    let msg_len := unpack32 b0 b1 b2 b3
    if msg_len = 0 ∨ msg_len > 52428800 then ReadResult.eof
    else
      match readChunks rest msg_len with
      | none => ReadResult.eof
      | some payload =>
        match loads (bytesToStr payload) with
        | some j => ReadResult.msg j
        | none => ReadResult.exn ⟨"JSONDecodeError", "Expecting value: line 1 column 1 (char 0)"⟩
  | _ => ReadResult.eof

/-- write_message (dgfacade_worker.py lines 210-213): length prefix and
json.dumps payload sent as one unit. -/
def write_message (data : Json) : List Nat :=
  let payload := strToBytes (Json.dumps data)
  pack32 payload.length ++ payload

/-! ## Worker dispatch engine (dgfacade_worker.py: handle_execute,
handle_request, handle_connection)

A handler instance of the DGHandlerBase contract is modelled by its
observable behaviour: whether construct raises for a given config, what
execute returns or raises, and whether cleanup raises.  Handler resolution
(importlib plus the module-level cache) is an external effect, passed in as
a resolver function from the two envelope fields to an instance or an
ImportError. -/

/-- Behaviour of a worker-side handler instance (DGHandlerBase contract). -/
structure WorkerHandler where
  constructErr : Json → Option PyErr
  executeFn : Json → Json → Except PyErr Json
  cleanupErr : Option PyErr

/-- Result of one handle_execute dispatch: the returned response document
and how many times handler.cleanup() was invoked on the way. -/
structure WkOutcome where
  response : Json
  cleanupCount : Nat

/-- traceback.format_exc() at the point of catch: opaque trace text. -/
def tracebackText (e : PyErr) : String :=
  "Traceback (most recent call last): " ++ e.kind ++ ": " ++ e.msg

/-- The ERROR response built by handle_execute's except-clause. -/
def workerErrorResponse (handler_module handler_class : Json) (e : PyErr) : Json :=
  Json.obj [("status", Json.str "ERROR"),
            ("error_message", Json.str ("Python handler " ++ pyStr handler_module ++ "." ++
              pyStr handler_class ++ " failed: " ++ e.msg)),
            ("traceback", Json.str (tracebackText e))]

/-- First defaulting step of handle_execute (lines 150-151): a missing
status key is set to SUCCESS. -/
def normalizeStatus (fs : List (String × Json)) : List (String × Json) :=
  if pyHasKey fs "status" then fs else dictInsert fs "status" (Json.str "SUCCESS")

/-- Second defaulting step (lines 152-153): a missing data key is set to
the empty map when the (possibly just defaulted) status equals SUCCESS. -/
def normalizeData (fs1 : List (String × Json)) : List (String × Json) :=
  if !pyHasKey fs1 "data" && jsonEqStr (pyGetD fs1 "status" Json.null) "SUCCESS" then
    dictInsert fs1 "data" (Json.obj [])
  else fs1

/-- The defaulting of handle_execute (lines 146-155) on a dict result:
both steps in order. -/
def normalizeDict (fs : List (String × Json)) : List (String × Json) :=
  normalizeData (normalizeStatus fs)

/-- The result coercion of handle_execute: non-dict results are wrapped,
dict results are defaulted. -/
def normalizeResult (result : Json) : Json :=
  match result with
  | Json.obj fs => Json.obj (normalizeDict fs)
  | other => Json.obj [("status", Json.str "SUCCESS"),
                       ("data", Json.obj [("result", Json.str (pyStr other))])]

/-- handle_execute (dgfacade_worker.py lines 129-168).

The first try-block catches only json.JSONDecodeError, so the TypeError
that json.loads raises on a non-string field escapes the function (modelled
by Except.error).  The finally-block invokes handler.cleanup() inside its
own try/except: its count is recorded, a raising cleanup is swallowed and
the already computed return value is untouched (cleanupErr is never
consulted for the response); when resolution failed the local name handler
is unbound, the resulting NameError is swallowed, and cleanup runs zero
times. -/
def handle_execute (resolver : Json → Json → Except PyErr WorkerHandler)
    (appProperties : Json) (data : List (String × Json)) : Except PyErr WkOutcome :=
  let handler_module := pyGetD data "handler_module" (Json.str "")
  let handler_class := pyGetD data "handler_class" (Json.str "")
  let request_json := pyGetD data "request_json" (Json.str "\x7b\x7d")
  let config_json := pyGetD data "config_json" (Json.str "\x7b\x7d")
  match pyLoads request_json with
  | Except.error e =>
    if e.kind = "JSONDecodeError" then
      Except.ok ⟨Json.obj [("status", Json.str "ERROR"),
        ("error_message", Json.str ("Invalid JSON input: " ++ e.msg))], 0⟩
    else Except.error e
  | Except.ok request =>
    match pyLoads config_json with
    | Except.error e =>
      if e.kind = "JSONDecodeError" then
        Except.ok ⟨Json.obj [("status", Json.str "ERROR"),
          ("error_message", Json.str ("Invalid JSON input: " ++ e.msg))], 0⟩
      else Except.error e
    | Except.ok config =>
      match resolver handler_module handler_class with
      | Except.error e => Except.ok ⟨workerErrorResponse handler_module handler_class e, 0⟩
      | Except.ok handler =>
        match handler.constructErr config with
        | some e => Except.ok ⟨workerErrorResponse handler_module handler_class e, 1⟩
        | none =>
          match handler.executeFn request appProperties with
          | Except.error e => Except.ok ⟨workerErrorResponse handler_module handler_class e, 1⟩
          | Except.ok result => Except.ok ⟨normalizeResult result, 1⟩

/-- handle_request (dgfacade_worker.py lines 171-186): the command router.
now is the datetime.now(timezone.utc).isoformat() reading, workerId the
global WORKER_ID.  data.get raises AttributeError on a non-dict document. -/
def handle_request (now : String) (workerId : Int)
    (resolver : Json → Json → Except PyErr WorkerHandler)
    (appProperties : Json) (data : Json) : Except PyErr Json :=
  match data with
  | Json.obj fs =>
    let command := pyGetD fs "command" (Json.str "")
    if jsonEqStr command "ping" then
      Except.ok (Json.obj [("status", Json.str "pong"), ("timestamp", Json.str now),
                           ("worker_id", Json.num workerId)])
    else if jsonEqStr command "execute" then
      (handle_execute resolver appProperties fs).map WkOutcome.response
    else if jsonEqStr command "shutdown" then
      Except.ok (Json.obj [("status", Json.str "shutdown_ack")])
    else
      Except.ok (Json.obj [("status", Json.str "ERROR"),
        ("error_message", Json.str ("Unknown command: " ++ pyStr command))])
  | _ => Except.error ⟨"AttributeError", "object has no attribute get"⟩

/-- The best-effort error frame of handle_connection's except-clause:
str(e) is the exception message. -/
def connErrorFrame (e : PyErr) : Json :=
  Json.obj [("status", Json.str "ERROR"), ("error_message", Json.str e.msg)]

/-- handle_connection (dgfacade_worker.py lines 216-238): one
request/response exchange.  Returns the list of response documents written
on the connection and the keep-running flag handed back to the accept loop;
the connection itself is closed unconditionally by the finally-block. -/
def handle_connection (now : String) (workerId : Int)
    (resolver : Json → Json → Except PyErr WorkerHandler)
    (appProperties : Json) (stream : List Nat) : List Json × Bool :=
  match read_message stream with
  | ReadResult.eof => ([], true)
  | ReadResult.exn e => ([connErrorFrame e], true)
  | ReadResult.msg data =>
    match handle_request now workerId resolver appProperties data with
    | Except.error e => ([connErrorFrame e], true)
    | Except.ok response =>
      match data with
      | Json.obj fs =>
        if jsonEqStr (pyGetD fs "command" Json.null) "shutdown" then ([response], false)
        else ([response], true)
      | _ => ([response], true)

/-! ## Handler lifecycle and RPC delegate (dg_handler.py, dg_gateway.py)

A per-request handler of the DGHandler contract is modelled by its
behaviour: its request-type string, the validation an overriding start
performs after calling super().start (the repository's only override,
TransformPythonHandler.start, has this shape), the compute body, and
whether an overriding stop raises (stopErr = none is the inherited
DGHandler.stop, which never raises). -/

/-- Mirrors HandlerStatus in dg_handler.py. -/
inductive HandlerStatus where
  | CREATED : HandlerStatus
  | STARTING : HandlerStatus
  | READY : HandlerStatus
  | EXECUTING : HandlerStatus
  | STOPPING : HandlerStatus
  | STOPPED : HandlerStatus
  | FAILED : HandlerStatus
deriving DecidableEq

/-- The mutable state of a DGHandler instance: its lifecycle status and the
stored request dict (set by start; always a dict when set, because
executeHandler dereferences the parsed request before constructing). -/
structure HState where
  status : HandlerStatus
  request : Option (List (String × Json))

/-- Behaviour of one gateway-side handler class. -/
structure GwHandler where
  requestType : String
  startCheck : List (String × Json) → Option PyErr
  compute : List (String × Json) → Except PyErr Json
  stopErr : Option PyErr

/-- DGHandler.start (dg_handler.py lines 138-148): status STARTING, store
the request, status READY. -/
def dgStart (request : List (String × Json)) : HState :=
  { status := HandlerStatus.READY, request := some request }

/-- DGHandler.stop (dg_handler.py lines 190-197): unconditionally set
status STOPPED. -/
def dgStop (st : HState) : HState :=
  { st with status := HandlerStatus.STOPPED }

/-- DGHandler.execute (dg_handler.py lines 150-188): status EXECUTING, run
compute, and return a full response dict; a raising compute is caught here,
setting status FAILED and returning an ERROR response (the exception does
not escape execute).  elapsedMs models the two time.time() readings. -/
def dgExecute (h : GwHandler) (elapsedMs : Int) (st : HState) : HState × Json :=
  let st1 := { st with status := HandlerStatus.EXECUTING }
  let req := st1.request.getD []
  match h.compute req with
  | Except.ok result =>
    ({ st1 with status := HandlerStatus.STOPPED },
     Json.obj [("status", Json.str "SUCCESS"),
               ("requestId", pyGetD req "requestId" (Json.str "unknown")),
               ("handlerType", Json.str h.requestType),
               ("result", result),
               ("executionTimeMs", Json.num elapsedMs)])
  | Except.error e =>
    ({ st1 with status := HandlerStatus.FAILED },
     Json.obj [("status", Json.str "ERROR"),
               ("requestId", pyGetD req "requestId" (Json.str "unknown")),
               ("handlerType", Json.str h.requestType),
               ("errorCode", Json.str e.kind),
               ("errorMessage", Json.str e.msg),
               ("stackTrace", Json.str (tracebackText e)),
               ("executionTimeMs", Json.num elapsedMs)])

/-- Split a character list at its last dot (the part before it and the
part after it), if any. -/
def lastDotSplit : List Char → Option (List Char × List Char)
  | [] => none
  | c :: cs =>
    match lastDotSplit cs with
    | some (pre, post) => some (c :: pre, post)
    | none => if c = Char.ofNat 46 then some ([], cs) else none

/-- name.rsplit(".", 1) when the name contains a dot: module path and
class name. -/
def rsplitDot (s : String) : Option (String × String) :=
  match lastDotSplit s.data with
  | some (pre, post) => some (String.mk pre, String.mk post)
  | none => none

/-- DGPythonDelegate._load_class (dg_gateway.py lines 168-207): reject a
name without a dot, then resolve module and class.  importer models
importlib.import_module plus getattr; the source wraps its failures into
ImportError, so the importer's error is returned as raised.  The class
cache memoises successful resolutions only and does not change the
behaviour of a single dispatch. -/
def loadClass (importer : String → String → Except PyErr GwHandler)
    (fully_qualified_name : String) : Except PyErr GwHandler :=
  match rsplitDot fully_qualified_name with
  | none => Except.error ⟨"ImportError",
      "Invalid Python class name: \x27" ++ fully_qualified_name ++
      "\x27. Expected format: \x27module.path.ClassName\x27"⟩
  | some (module_path, class_name) => importer module_path class_name

/-- Result of one executeHandler dispatch: the response document (the
method returns json.dumps of it), the number of times handler stop() was
invoked, and the final handler instance state (none when no instance was
constructed). -/
structure GwOutcome where
  response : Json
  stopCount : Nat
  finalState : Option HState

/-- The error response dict built in executeHandler's except-clause.  The
source first sets requestId to "unknown" and then overwrites it in place
when request_dict is bound; the dict position is unchanged by the
overwrite, so the final value is built directly. -/
def gwErrorResponse (python_class_name : String) (e : PyErr) (requestId : Json) : Json :=
  Json.obj [("status", Json.str "ERROR"),
            ("requestId", requestId),
            ("handlerType", Json.str python_class_name),
            ("errorCode", Json.str e.kind),
            ("errorMessage", Json.str e.msg),
            ("stackTrace", Json.str (tracebackText e))]

/-- The requestId recovery in the except-clause: request_dict.get inside
its own try/except, leaving "unknown" when request_dict is not a dict. -/
def gwRecoverId (request_dict : Json) : Json :=
  match request_dict with
  | Json.obj fs => pyGetD fs "requestId" (Json.str "unknown")
  | _ => Json.str "unknown"

/-- DGPythonDelegate.executeHandler (dg_gateway.py lines 65-153).

Control flow mirrored: parse the request json (a failure reaches the
except-clause with request_dict unbound), parse the properties json when
the string is nonempty, dereference request_dict.get (an AttributeError on
a non-dict), load the class, construct, start, execute, stop.  The
except-clause builds an error response and, when an instance exists,
invokes stop once more, swallowing its exception.  A stop that raises on
the success path therefore discards the built response and counts a second
stop invocation. -/
def executeHandler (importer : String → String → Except PyErr GwHandler)
    (elapsedMs : Int)
    (python_class_name dg_request_json app_properties_json : String) : GwOutcome :=
  match loads dg_request_json with
  | none =>
    ⟨gwErrorResponse python_class_name
      ⟨"JSONDecodeError", "Expecting value: line 1 column 1 (char 0)"⟩
      (Json.str "unknown"), 0, none⟩
  | some request_dict =>
    match (if app_properties_json = "" then some (Json.obj []) else loads app_properties_json) with
    | none =>
      ⟨gwErrorResponse python_class_name
        ⟨"JSONDecodeError", "Expecting value: line 1 column 1 (char 0)"⟩
        (gwRecoverId request_dict), 0, none⟩
    | some _ =>
      match request_dict with
      | Json.obj reqFields =>
        match loadClass importer python_class_name with
        | Except.error e =>
          ⟨gwErrorResponse python_class_name e
            (pyGetD reqFields "requestId" (Json.str "unknown")), 0, none⟩
        | Except.ok cls =>
          let st1 := dgStart reqFields
          match cls.startCheck reqFields with
          | some e =>
            let er := gwErrorResponse python_class_name e
              (pyGetD reqFields "requestId" (Json.str "unknown"))
            match cls.stopErr with
            | some _ => ⟨er, 1, some st1⟩
            | none => ⟨er, 1, some (dgStop st1)⟩
          | none =>
            match dgExecute cls elapsedMs st1 with
            | (st2, response_dict) =>
              match cls.stopErr with
              | none => ⟨response_dict, 1, some (dgStop st2)⟩
              | some e2 =>
                let er := gwErrorResponse python_class_name e2
                  (pyGetD reqFields "requestId" (Json.str "unknown"))
                ⟨er, 2, some st2⟩
      | _ =>
        ⟨gwErrorResponse python_class_name
          ⟨"AttributeError", "object has no attribute get"⟩
          (Json.str "unknown"), 0, none⟩

/-! ## Transform handler: SHA256 operation
(transform_handler.py lines 86-89: hashlib.sha256(text.encode("utf-8")).hexdigest())

hashlib is stdlib; SHA-256 is implemented here in full (FIPS 180-4) over
Nat with explicit reduction modulo 2^32. -/

/-- text.encode("utf-8"): the UTF-8 bytes of a string. -/
def utf8Char (c : Char) : List Nat :=
  let n := c.toNat
  if n < 128 then [n]
  else if n < 2048 then [192 + n / 64, 128 + n % 64]
  else if n < 65536 then [224 + n / 4096, 128 + n / 64 % 64, 128 + n % 64]
  else [240 + n / 262144, 128 + n / 4096 % 64, 128 + n / 64 % 64, 128 + n % 64]

def utf8Encode (s : String) : List Nat :=
  (s.data.map utf8Char).flatten

/-- Addition modulo 2^32. -/
def wadd (a b : Nat) : Nat := (a + b) % 4294967296

/-- Right rotation of a 32-bit word. -/
def rotr32 (n x : Nat) : Nat := ((x >>> n) ||| (x <<< (32 - n))) % 4294967296

def bsig0 (x : Nat) : Nat := rotr32 2 x ^^^ rotr32 13 x ^^^ rotr32 22 x
def bsig1 (x : Nat) : Nat := rotr32 6 x ^^^ rotr32 11 x ^^^ rotr32 25 x
def ssig0 (x : Nat) : Nat := rotr32 7 x ^^^ rotr32 18 x ^^^ (x >>> 3)
def ssig1 (x : Nat) : Nat := rotr32 17 x ^^^ rotr32 19 x ^^^ (x >>> 10)
def chf (x y z : Nat) : Nat := (x &&& y) ^^^ ((x ^^^ 4294967295) &&& z)
def majf (x y z : Nat) : Nat := (x &&& y) ^^^ (x &&& z) ^^^ (y &&& z)

/-- The 64 SHA-256 round constants. -/
def K256 : List Nat :=
  [1116352408, 1899447441, 3049323471, 3921009573,
   961987163, 1508970993, 2453635748, 2870763221,
   3624381080, 310598401, 607225278, 1426881987,
   1925078388, 2162078206, 2614888103, 3248222580,
   3835390401, 4022224774, 264347078, 604807628,
   770255983, 1249150122, 1555081692, 1996064986,
   2554220882, 2821834349, 2952996808, 3210313671,
   3336571891, 3584528711, 113926993, 338241895,
   666307205, 773529912, 1294757372, 1396182291,
   1695183700, 1986661051, 2177026350, 2456956037,
   2730485921, 2820302411, 3259730800, 3345764771,
   3516065817, 3600352804, 4094571909, 275423344,
   430227734, 506948616, 659060556, 883997877,
   958139571, 1322822218, 1537002063, 1747873779,
   1955562222, 2024104815, 2227730452, 2361852424,
   2428436474, 2756734187, 3204031479, 3329325298]

/-- The initial SHA-256 hash state. -/
def H256 : List Nat :=
  [1779033703, 3144134277, 1013904242,
   2773480762, 1359893119, 2600822924,
   528734635, 1541459225]

/-- Eight big-endian bytes of the 64-bit message bit length. -/
def be64 (n : Nat) : List Nat :=
  [n / 72057594037927936 % 256, n / 281474976710656 % 256,
   n / 1099511627776 % 256, n / 4294967296 % 256,
   n / 16777216 % 256, n / 65536 % 256, n / 256 % 256, n % 256]

/-- SHA-256 padding: 0x80, zeros to 56 mod 64, the bit length. -/
def sha256Pad (msg : List Nat) : List Nat :=
  let L := msg.length
  msg ++ (128 :: List.replicate ((64 - ((L + 9) % 64)) % 64) 0) ++ be64 (8 * L)

/-- Split the padded message into 64-byte blocks.  The first argument is
recursion fuel, instantiated with the byte count (an upper bound on the
number of blocks), so the function is structurally recursive. -/
def toBlocks : Nat → List Nat → List (List Nat)
  | _, [] => []
  | 0, _ :: _ => []
  | fuel + 1, b :: bs => ((b :: bs).take 64) :: toBlocks fuel ((b :: bs).drop 64)

/-- One big-endian 32-bit word from four bytes. -/
def beWord (bs : List Nat) : Nat :=
  match bs with
  | [a, b, c, d] => ((a * 256 + b) * 256 + c) * 256 + d
  | _ => 0

/-- The sixteen message words of one block. -/
def blockWords (block : List Nat) : List Nat :=
  (List.range 16).map (fun i => beWord ((block.drop (4 * i)).take 4))

/-- Message-schedule extension to 64 words. -/
def extendSchedule (ws : List Nat) : List Nat :=
  (List.range 48).foldl (fun acc _ =>
    let n := acc.length
    acc ++ [wadd (wadd (ssig1 (acc.getD (n - 2) 0)) (acc.getD (n - 7) 0))
                 (wadd (ssig0 (acc.getD (n - 15) 0)) (acc.getD (n - 16) 0))]) ws

/-- The SHA-256 compression function on one block. -/
def sha256Compress (h : List Nat) (block : List Nat) : List Nat :=
  let ws := extendSchedule (blockWords block)
  let fin := (K256.zip ws).foldl
    (fun st kw =>
      let t1 := wadd (wadd (wadd st.2.2.2.2.2.2.2 (bsig1 st.2.2.2.2.1))
                           (wadd (chf st.2.2.2.2.1 st.2.2.2.2.2.1 st.2.2.2.2.2.2.1) kw.1)) kw.2
      let t2 := wadd (bsig0 st.1) (majf st.1 st.2.1 st.2.2.1)
      (wadd t1 t2, st.1, st.2.1, st.2.2.1, wadd st.2.2.2.1 t1,
       st.2.2.2.2.1, st.2.2.2.2.2.1, st.2.2.2.2.2.2.1))
    (h.getD 0 0, h.getD 1 0, h.getD 2 0, h.getD 3 0,
     h.getD 4 0, h.getD 5 0, h.getD 6 0, h.getD 7 0)
  [wadd (h.getD 0 0) fin.1, wadd (h.getD 1 0) fin.2.1,
   wadd (h.getD 2 0) fin.2.2.1, wadd (h.getD 3 0) fin.2.2.2.1,
   wadd (h.getD 4 0) fin.2.2.2.2.1, wadd (h.getD 5 0) fin.2.2.2.2.2.1,
   wadd (h.getD 6 0) fin.2.2.2.2.2.2.1, wadd (h.getD 7 0) fin.2.2.2.2.2.2.2]

/-- SHA-256 digest of a byte sequence, as eight 32-bit words. -/
def sha256 (msg : List Nat) : List Nat :=
  (toBlocks (sha256Pad msg).length (sha256Pad msg)).foldl sha256Compress H256

/-- Eight lowercase hex digits of one 32-bit word. -/
def hex8 (n : Nat) : List Char :=
  [hexDigitChar (n / 268435456 % 16), hexDigitChar (n / 16777216 % 16),
   hexDigitChar (n / 1048576 % 16), hexDigitChar (n / 65536 % 16),
   hexDigitChar (n / 4096 % 16), hexDigitChar (n / 256 % 16),
   hexDigitChar (n / 16 % 16), hexDigitChar (n % 16)]

/-- hexdigest(): the 64 lowercase hex characters of the digest. -/
def sha256Hex (msg : List Nat) : String :=
  String.mk ((sha256 msg).map hex8).flatten

/-- TransformPythonHandler._sha256 (transform_handler.py lines 86-89):
the result dict for the SHA256 operation. -/
def transformSha256 (text : String) : Json :=
  Json.obj [("hash", Json.str (sha256Hex (utf8Encode text))),
            ("algorithm", Json.str "SHA-256"),
            ("inputLength", Json.num (text.length : Int))]

/-! ## Transform handler: JSON_FLATTEN operation
(transform_handler.py lines 102-120)

The source recursion is mirrored exactly: each recursive call
items.update(_json_flatten(...)) merges the RETURN VALUE of _json_flatten
— the wrapper dict with keys "flattened" and "keyCount" — into items, not
the flattened sub-entries. -/

mutual

/-- The loop body of _json_flatten over data.items(), accumulating items.
The Nat argument is recursion fuel (instantiated with an upper bound on
the recursion depth, so that the functions are structurally recursive and
the exhaustion branches are unreachable). -/
def flattenFold : Nat → String → List (String × Json) → List (String × Json) →
    List (String × Json)
  | _, _, items, [] => items
  | 0, _, items, _ :: _ => items
  | fuel + 1, pre, items, (k, v) :: rest =>
    let new_key := if pre = "" then k else pre ++ "." ++ k
    let items2 :=
      match v with
      | Json.obj sub => dictUpdate items (flattenWrap fuel new_key sub)
      | Json.arr xs => flattenList fuel new_key 0 items xs
      | other => dictInsert items new_key other
    flattenFold fuel pre items2 rest

/-- The inner loop over a list value: dict elements recurse (again merging
the wrapper), other elements become bracket-indexed entries. -/
def flattenList : Nat → String → Nat → List (String × Json) → List Json →
    List (String × Json)
  | _, _, _, items, [] => items
  | 0, _, _, items, _ :: _ => items
  | fuel + 1, key, i, items, x :: rest =>
    let items2 :=
      match x with
      | Json.obj sub =>
        dictUpdate items (flattenWrap fuel (key ++ "[" ++ toString i ++ "]") sub)
      | other => dictInsert items (key ++ "[" ++ toString i ++ "]") other
    flattenList fuel key (i + 1) items2 rest

/-- The full return value of _json_flatten(data, pre), as a field list:
the wrapper dict with the accumulated items and their count. -/
def flattenWrap : Nat → String → List (String × Json) → List (String × Json)
  | 0, _, _ => []
  | fuel + 1, pre, fs =>
    let items := flattenFold fuel pre [] fs
    [("flattened", Json.obj items), ("keyCount", Json.num (items.length : Int))]

end

/-- TransformPythonHandler._json_flatten(data, prefix): the returned dict.
The fuel bound is the serialized length of the input plus two: every unit
of fuel consumed corresponds to a list element or a nested container, each
of which occupies at least one character of the serialization, so the
exhaustion branches are unreachable. -/
def json_flatten (data : List (String × Json)) (pre : String) : Json :=
  Json.obj (flattenWrap ((Json.dumps (Json.obj data)).length + 2) pre data)

/-! ## Accessors used by the statements -/

/-- Whether a value is a Python str. -/
def Json.isStr : Json → Bool
  | Json.str _ => true
  | _ => false

/-- Field of a response document (Json.null when absent or not a dict). -/
def responseField (r : Json) (k : String) : Json :=
  match r with
  | Json.obj fs => pyGetD fs k Json.null
  | _ => Json.null

/-! # Lemmas -/

theorem unpack32_pack32 (n : Nat) (h : n < 4294967296) :
    unpack32 (n / 16777216 % 256) (n / 65536 % 256) (n / 256 % 256) (n % 256) = n := by
  unfold unpack32
  omega

theorem readChunks_exact (stream : List Nat) (n : Nat) (h : n ≤ stream.length) :
    readChunks stream n = some (stream.take n) := by
  induction n using Nat.strong_induction_on generalizing stream with
  | _ n ih =>
    rw [readChunks]
    by_cases h0 : n = 0
    · simp [h0]
    · have hlen : 0 < stream.length := lt_of_lt_of_le (Nat.pos_of_ne_zero h0) h
      have hne : stream.isEmpty = false := by
        cases stream with
        | nil => simp at hlen
        | cons a l => simp
      simp only [h0, if_false, hne, Bool.false_eq_true]
      have hk : min (min n 65536) stream.length ≤ n := le_trans (min_le_left _ _) (min_le_left _ _)
      have hkpos : 0 < min (min n 65536) stream.length := by
        have h65536 : (0:Nat) < 65536 := by norm_num
        simp only [lt_min_iff]
        exact ⟨⟨Nat.pos_of_ne_zero h0, h65536⟩, hlen⟩
      have hrec := ih (n - min (min n 65536) stream.length) (by omega)
        (stream.drop (min (min n 65536) stream.length))
        (by simp [List.length_drop]; omega)
      simp only [hrec]
      congr 1
      have heq : min (min n 65536) stream.length + (n - min (min n 65536) stream.length) = n := by
        omega
      rw [← List.take_add, heq]

theorem bytesToStr_strToBytes (s : String) : bytesToStr (strToBytes s) = s := by
  unfold bytesToStr strToBytes
  rw [List.map_map]
  have hmap : s.data.map (Char.ofNat ∘ Char.toNat) = s.data := by
    rw [show Char.ofNat ∘ Char.toNat = id from funext Char.ofNat_toNat, List.map_id]
  rw [hmap]

theorem strToBytes_length (s : String) : (strToBytes s).length = s.length := by
  unfold strToBytes
  rw [List.length_map]
  rfl

theorem find?_eq_none_of_not_hasKey (fs : List (String × Json)) (k : String)
    (h : pyHasKey fs k = false) : fs.find? (fun p => p.1 = k) = none := by
  cases hf : fs.find? (fun p => p.1 = k) with
  | none => rfl
  | some q =>
    exfalso
    have hs : (fs.find? (fun p => p.1 = k)).isSome = true := by rw [hf]; rfl
    rw [List.find?_isSome] at hs
    obtain ⟨x, hx, hpx⟩ := hs
    unfold pyHasKey at h
    rw [List.any_eq_false] at h
    have hcontra := h x hx
    simp only [hpx] at hcontra
    exact hcontra trivial

theorem pyGetD_append_self (fs : List (String × Json)) (k : String) (v d : Json)
    (h : pyHasKey fs k = false) : pyGetD (fs ++ [(k, v)]) k d = v := by
  unfold pyGetD
  rw [List.find?_append, find?_eq_none_of_not_hasKey fs k h]
  simp [List.find?_cons]

theorem pyGetD_append_of_hasKey (fs l : List (String × Json)) (k : String) (d : Json)
    (h : pyHasKey fs k = true) : pyGetD (fs ++ l) k d = pyGetD fs k d := by
  unfold pyGetD
  rw [List.find?_append]
  unfold pyHasKey at h
  rw [List.any_eq_true] at h
  obtain ⟨p, hp, hk⟩ := h
  have : (fs.find? (fun p => p.1 = k)).isSome = true := by
    rw [List.find?_isSome]
    exact ⟨p, hp, hk⟩
  cases hf : fs.find? (fun p => p.1 = k) with
  | none => rw [hf] at this; simp at this
  | some q => simp

theorem pyGetD_append_single_other (fs : List (String × Json)) (k k2 : String) (v d : Json)
    (h : k ≠ k2) : pyGetD (fs ++ [(k, v)]) k2 d = pyGetD fs k2 d := by
  unfold pyGetD
  rw [List.find?_append]
  have : List.find? (fun p => p.1 = k2) [(k, v)] = none := by
    simp [List.find?_cons, h]
  rw [this]
  cases hf : fs.find? (fun p => p.1 = k2) with
  | none => simp
  | some q => simp

theorem pyHasKey_append (fs l : List (String × Json)) (k : String) :
    pyHasKey (fs ++ l) k = (pyHasKey fs k || pyHasKey l k) := by
  unfold pyHasKey
  exact List.any_append

theorem dictInsert_of_not_hasKey (fs : List (String × Json)) (k : String) (v : Json)
    (h : pyHasKey fs k = false) : dictInsert fs k v = fs ++ [(k, v)] := by
  unfold dictInsert
  rw [h]
  simp

theorem pyHasKey_single_other (k k2 : String) (v : Json) (h : k ≠ k2) :
    pyHasKey [(k, v)] k2 = false := by
  unfold pyHasKey
  simp [h]

theorem pyHasKey_single_self (k : String) (v : Json) : pyHasKey [(k, v)] k = true := by
  unfold pyHasKey
  simp

theorem normalizeStatus_of_hasKey (fs : List (String × Json))
    (hs : pyHasKey fs "status" = true) : normalizeStatus fs = fs := by
  unfold normalizeStatus
  rw [hs]
  rfl

theorem normalizeStatus_of_not_hasKey (fs : List (String × Json))
    (hs : pyHasKey fs "status" = false) :
    normalizeStatus fs = fs ++ [("status", Json.str "SUCCESS")] := by
  unfold normalizeStatus
  rw [hs]
  simp only [Bool.false_eq_true, if_false]
  exact dictInsert_of_not_hasKey fs _ _ hs

theorem normalizeStatus_hasKey_status (fs : List (String × Json)) :
    pyHasKey (normalizeStatus fs) "status" = true := by
  cases hs : pyHasKey fs "status" with
  | true => rw [normalizeStatus_of_hasKey fs hs]; exact hs
  | false =>
    rw [normalizeStatus_of_not_hasKey fs hs, pyHasKey_append, hs, pyHasKey_single_self]
    rfl

theorem normalizeStatus_hasKey_of_hasKey (fs : List (String × Json)) (k : String)
    (h : pyHasKey fs k = true) : pyHasKey (normalizeStatus fs) k = true := by
  cases hs : pyHasKey fs "status" with
  | true => rw [normalizeStatus_of_hasKey fs hs]; exact h
  | false => rw [normalizeStatus_of_not_hasKey fs hs, pyHasKey_append, h]; rfl

theorem normalizeStatus_hasKey_data (fs : List (String × Json)) :
    pyHasKey (normalizeStatus fs) "data" = pyHasKey fs "data" := by
  cases hs : pyHasKey fs "status" with
  | true => rw [normalizeStatus_of_hasKey fs hs]
  | false =>
    rw [normalizeStatus_of_not_hasKey fs hs, pyHasKey_append,
        pyHasKey_single_other _ _ _ (by decide), Bool.or_false]

theorem normalizeStatus_getD_of_hasKey (fs : List (String × Json)) (k : String) (d : Json)
    (h : pyHasKey fs k = true) : pyGetD (normalizeStatus fs) k d = pyGetD fs k d := by
  cases hs : pyHasKey fs "status" with
  | true => rw [normalizeStatus_of_hasKey fs hs]
  | false => exact normalizeStatus_of_not_hasKey fs hs ▸ pyGetD_append_of_hasKey fs _ k d h

theorem normalizeStatus_getD_status_default (fs : List (String × Json)) (d : Json)
    (hs : pyHasKey fs "status" = false) :
    pyGetD (normalizeStatus fs) "status" d = Json.str "SUCCESS" := by
  rw [normalizeStatus_of_not_hasKey fs hs]
  exact pyGetD_append_self fs _ _ d hs

theorem normalizeData_of_cond_false (fs1 : List (String × Json))
    (hc : (!pyHasKey fs1 "data" && jsonEqStr (pyGetD fs1 "status" Json.null) "SUCCESS") = false) :
    normalizeData fs1 = fs1 := by
  unfold normalizeData
  rw [hc]
  rfl

theorem normalizeData_of_cond_true (fs1 : List (String × Json))
    (hc : (!pyHasKey fs1 "data" && jsonEqStr (pyGetD fs1 "status" Json.null) "SUCCESS") = true) :
    normalizeData fs1 = fs1 ++ [("data", Json.obj [])] := by
  unfold normalizeData
  rw [hc]
  simp only [if_true]
  have hd : pyHasKey fs1 "data" = false := by
    rw [Bool.and_eq_true] at hc
    have := hc.1
    simpa [Bool.not_eq_true'] using this
  exact dictInsert_of_not_hasKey fs1 _ _ hd

theorem normalizeData_getD_of_hasKey (fs1 : List (String × Json)) (k : String) (d : Json)
    (h : pyHasKey fs1 k = true) : pyGetD (normalizeData fs1) k d = pyGetD fs1 k d := by
  cases hc : (!pyHasKey fs1 "data" && jsonEqStr (pyGetD fs1 "status" Json.null) "SUCCESS") with
  | true => rw [normalizeData_of_cond_true fs1 hc]; exact pyGetD_append_of_hasKey fs1 _ k d h
  | false => rw [normalizeData_of_cond_false fs1 hc]

theorem normalizeData_data_default (fs1 : List (String × Json)) (d : Json)
    (hd : pyHasKey fs1 "data" = false)
    (hsucc : jsonEqStr (pyGetD fs1 "status" Json.null) "SUCCESS" = true) :
    pyGetD (normalizeData fs1) "data" d = Json.obj [] := by
  have hc : (!pyHasKey fs1 "data" && jsonEqStr (pyGetD fs1 "status" Json.null) "SUCCESS") = true := by
    rw [hd, hsucc]
    rfl
  rw [normalizeData_of_cond_true fs1 hc]
  exact pyGetD_append_self fs1 _ _ d hd

theorem normalizeDict_getD_of_hasKey (fs : List (String × Json)) (k : String) (d : Json)
    (h : pyHasKey fs k = true) : pyGetD (normalizeDict fs) k d = pyGetD fs k d := by
  unfold normalizeDict
  rw [normalizeData_getD_of_hasKey _ _ _ (normalizeStatus_hasKey_of_hasKey fs k h)]
  exact normalizeStatus_getD_of_hasKey fs k d h

theorem normalizeDict_status_default (fs : List (String × Json)) (d : Json)
    (hs : pyHasKey fs "status" = false) :
    pyGetD (normalizeDict fs) "status" d = Json.str "SUCCESS" := by
  unfold normalizeDict
  rw [normalizeData_getD_of_hasKey _ _ _ (normalizeStatus_hasKey_status fs)]
  exact normalizeStatus_getD_status_default fs d hs

theorem normalizeDict_status (fs : List (String × Json)) (d : Json) :
    pyGetD (normalizeDict fs) "status" d = Json.str "SUCCESS" ∨
    (pyHasKey fs "status" = true ∧
     pyGetD (normalizeDict fs) "status" d = pyGetD fs "status" d) := by
  cases hs : pyHasKey fs "status" with
  | true => exact Or.inr ⟨rfl, normalizeDict_getD_of_hasKey fs _ d hs⟩
  | false => exact Or.inl (normalizeDict_status_default fs d hs)

theorem normalizeDict_data_default (fs : List (String × Json)) (d : Json)
    (hd : pyHasKey fs "data" = false)
    (hsucc : jsonEqStr (pyGetD (normalizeDict fs) "status" Json.null) "SUCCESS" = true) :
    pyGetD (normalizeDict fs) "data" d = Json.obj [] := by
  unfold normalizeDict at hsucc ⊢
  have hstat : pyGetD (normalizeData (normalizeStatus fs)) "status" Json.null =
      pyGetD (normalizeStatus fs) "status" Json.null :=
    normalizeData_getD_of_hasKey _ _ _ (normalizeStatus_hasKey_status fs)
  rw [hstat] at hsucc
  have hd1 : pyHasKey (normalizeStatus fs) "data" = false := by
    rw [normalizeStatus_hasKey_data fs]
    exact hd
  exact normalizeData_data_default (normalizeStatus fs) d hd1 hsucc

theorem hex8_length (n : Nat) : (hex8 n).length = 8 := rfl

theorem sha256Compress_length (h block : List Nat) :
    (sha256Compress h block).length = 8 := rfl

theorem sha256_length (msg : List Nat) : (sha256 msg).length = 8 := by
  unfold sha256
  have haux : ∀ (bs : List (List Nat)) (h : List Nat), h.length = 8 →
      (bs.foldl sha256Compress h).length = 8 := by
    intro bs
    induction bs with
    | nil => intro h hh; simpa using hh
    | cons b bs ih =>
      intro h _
      exact ih (sha256Compress h b) (sha256Compress_length h b)
  exact haux _ H256 rfl

theorem sha256Hex_length (msg : List Nat) : (sha256Hex msg).length = 64 := by
  unfold sha256Hex
  have hflat : ∀ ws : List Nat, ((ws.map hex8).flatten).length = 8 * ws.length := by
    intro ws
    induction ws with
    | nil => rfl
    | cons w ws ih =>
      simp only [List.map_cons, List.flatten_cons, List.length_append, ih, hex8_length,
                 List.length_cons]
      ring
  have : (String.mk ((sha256 msg).map hex8).flatten).length =
      (((sha256 msg).map hex8).flatten).length := rfl
  rw [this, hflat, sha256_length]

theorem executeHandler_status (importer : String → String → Except PyErr GwHandler)
    (elapsedMs : Int) (n rj pj : String) :
    responseField (executeHandler importer elapsedMs n rj pj).response "status" =
        Json.str "SUCCESS" ∨
    responseField (executeHandler importer elapsedMs n rj pj).response "status" =
        Json.str "ERROR" := by
  cases hl : loads rj with
  | none =>
    right
    simp only [executeHandler, hl]
    rfl
  | some rd =>
    cases hp : (if pj = "" then some (Json.obj []) else loads pj) with
    | none =>
      right
      simp only [executeHandler, hl, hp]
      rfl
    | some ap =>
      cases rd with
      | obj reqFields =>
        cases hlc : loadClass importer n with
        | error e =>
          right
          simp only [executeHandler, hl, hp, hlc]
          rfl
        | ok cls =>
          cases hsc : cls.startCheck reqFields with
          | some e =>
            right
            cases hse : cls.stopErr with
            | some e2 => simp only [executeHandler, hl, hp, hlc, hsc, hse]; rfl
            | none => simp only [executeHandler, hl, hp, hlc, hsc, hse]; rfl
          | none =>
            cases hcomp : cls.compute reqFields with
            | ok result =>
              have hcomp2 : cls.compute ((dgStart reqFields).request.getD []) =
                  Except.ok result := hcomp
              cases hse : cls.stopErr with
              | none =>
                left
                simp only [executeHandler, hl, hp, hlc, hsc, hse, dgExecute, hcomp2]
                rfl
              | some e2 =>
                right
                simp only [executeHandler, hl, hp, hlc, hsc, hse, dgExecute, hcomp2]
                rfl
            | error e =>
              have hcomp2 : cls.compute ((dgStart reqFields).request.getD []) =
                  Except.error e := hcomp
              cases hse : cls.stopErr with
              | none =>
                right
                simp only [executeHandler, hl, hp, hlc, hsc, hse, dgExecute, hcomp2]
                rfl
              | some e2 =>
                right
                simp only [executeHandler, hl, hp, hlc, hsc, hse, dgExecute, hcomp2]
                rfl
      | null => right; simp only [executeHandler, hl, hp]; rfl
      | bool b => right; simp only [executeHandler, hl, hp]; rfl
      | num m => right; simp only [executeHandler, hl, hp]; rfl
      | str s => right; simp only [executeHandler, hl, hp]; rfl
      | arr xs => right; simp only [executeHandler, hl, hp]; rfl

/-! # Claims -/

/-- C1 (counterexample): the first try-block of handle_execute catches
only json.JSONDecodeError, so when the envelope carries a non-string
request_json field, json.loads raises TypeError and the exception escapes
handle_execute (it is contained one level up, at the connection layer). -/
theorem claim_C1_counterexample :
    handle_execute (fun _ _ => Except.error ⟨"ImportError", "no module"⟩) (Json.obj [])
      [("command", Json.str "execute"), ("request_json", Json.num 5)] =
      Except.error ⟨"TypeError", "the JSON object must be str, bytes or bytearray"⟩ := rfl

/-- C1 (amended): whenever the envelope's request_json and config_json
fields are strings (as the wire protocol prescribes), handle_execute
returns exactly one response and lets no exception escape; its status is
SUCCESS or ERROR provided handlers that set a status key follow the
documented contract.  The gateway's executeHandler unconditionally returns
exactly one response with status SUCCESS or ERROR. -/
theorem claim_C1 (resolver : Json → Json → Except PyErr WorkerHandler)
    (appProperties : Json) (data : List (String × Json))
    (hrq : (pyGetD data "request_json" (Json.str "\x7b\x7d")).isStr = true)
    (hcf : (pyGetD data "config_json" (Json.str "\x7b\x7d")).isStr = true)
    (hcontract : ∀ m c hd, resolver m c = Except.ok hd →
       ∀ req props gs, hd.executeFn req props = Except.ok (Json.obj gs) →
       pyHasKey gs "status" = true →
       pyGetD gs "status" Json.null = Json.str "SUCCESS" ∨
       pyGetD gs "status" Json.null = Json.str "ERROR") :
    (∃ out : WkOutcome, handle_execute resolver appProperties data = Except.ok out ∧
       (responseField out.response "status" = Json.str "SUCCESS" ∨
        responseField out.response "status" = Json.str "ERROR")) ∧
    (∀ (importer : String → String → Except PyErr GwHandler) (elapsedMs : Int)
       (n rj pj : String),
       responseField (executeHandler importer elapsedMs n rj pj).response "status" =
           Json.str "SUCCESS" ∨
       responseField (executeHandler importer elapsedMs n rj pj).response "status" =
           Json.str "ERROR") := by
  constructor
  · cases hv : pyGetD data "request_json" (Json.str "\x7b\x7d") with
    | str s =>
      cases hv2 : pyGetD data "config_json" (Json.str "\x7b\x7d") with
      | str s2 =>
        cases hl : loads s with
        | none =>
          exact ⟨⟨Json.obj [("status", Json.str "ERROR"),
              ("error_message", Json.str ("Invalid JSON input: " ++
                "Expecting value: line 1 column 1 (char 0)"))], 0⟩,
            by simp only [handle_execute, hv, hv2, pyLoads, hl, if_true], Or.inr rfl⟩
        | some request =>
          cases hl2 : loads s2 with
          | none =>
            exact ⟨⟨Json.obj [("status", Json.str "ERROR"),
                ("error_message", Json.str ("Invalid JSON input: " ++
                  "Expecting value: line 1 column 1 (char 0)"))], 0⟩,
              by simp only [handle_execute, hv, hv2, pyLoads, hl, hl2, if_true], Or.inr rfl⟩
          | some config =>
            cases hres : resolver (pyGetD data "handler_module" (Json.str ""))
                (pyGetD data "handler_class" (Json.str "")) with
            | error e =>
              exact ⟨⟨workerErrorResponse (pyGetD data "handler_module" (Json.str ""))
                  (pyGetD data "handler_class" (Json.str "")) e, 0⟩,
                by simp only [handle_execute, hv, hv2, pyLoads, hl, hl2, hres], Or.inr rfl⟩
            | ok hd =>
              cases hcon : hd.constructErr config with
              | some e =>
                exact ⟨⟨workerErrorResponse (pyGetD data "handler_module" (Json.str ""))
                    (pyGetD data "handler_class" (Json.str "")) e, 1⟩,
                  by simp only [handle_execute, hv, hv2, pyLoads, hl, hl2, hres, hcon],
                  Or.inr rfl⟩
              | none =>
                cases hex : hd.executeFn request appProperties with
                | error e =>
                  exact ⟨⟨workerErrorResponse (pyGetD data "handler_module" (Json.str ""))
                      (pyGetD data "handler_class" (Json.str "")) e, 1⟩,
                    by simp only [handle_execute, hv, hv2, pyLoads, hl, hl2, hres, hcon, hex],
                    Or.inr rfl⟩
                | ok result =>
                  refine ⟨⟨normalizeResult result, 1⟩, ?_, ?_⟩
                  · simp only [handle_execute, hv, hv2, pyLoads, hl, hl2, hres, hcon, hex]
                  · cases result with
                    | obj gs =>
                      have hfield :
                          responseField (WkOutcome.mk (normalizeResult (Json.obj gs)) 1).response
                            "status" = pyGetD (normalizeDict gs) "status" Json.null := rfl
                      rw [hfield]
                      cases normalizeDict_status gs Json.null with
                      | inl hstat => exact Or.inl hstat
                      | inr hstat =>
                        rw [hstat.2]
                        exact hcontract _ _ hd hres request appProperties gs hex hstat.1
                    | null => exact Or.inl rfl
                    | bool b => exact Or.inl rfl
                    | num m => exact Or.inl rfl
                    | str t => exact Or.inl rfl
                    | arr xs => exact Or.inl rfl
      | null => rw [hv2] at hcf; exact absurd hcf (by decide)
      | bool b => rw [hv2] at hcf; exact absurd hcf (by simp [Json.isStr])
      | num m => rw [hv2] at hcf; exact absurd hcf (by simp [Json.isStr])
      | arr xs => rw [hv2] at hcf; exact absurd hcf (by simp [Json.isStr])
      | obj gs => rw [hv2] at hcf; exact absurd hcf (by simp [Json.isStr])
    | null => rw [hv] at hrq; exact absurd hrq (by decide)
    | bool b => rw [hv] at hrq; exact absurd hrq (by simp [Json.isStr])
    | num m => rw [hv] at hrq; exact absurd hrq (by simp [Json.isStr])
    | arr xs => rw [hv] at hrq; exact absurd hrq (by simp [Json.isStr])
    | obj gs => rw [hv] at hrq; exact absurd hrq (by simp [Json.isStr])
  · intro importer elapsedMs n rj pj
    exact executeHandler_status importer elapsedMs n rj pj

/-- C1 witness: a handler returning a status-free dict. -/
theorem claim_C1_witness :
    (∃ out : WkOutcome,
       handle_execute
         (fun _ _ => Except.ok ⟨fun _ => none, fun _ _ => Except.ok (Json.obj []), none⟩)
         (Json.obj []) [] = Except.ok out ∧
       (responseField out.response "status" = Json.str "SUCCESS" ∨
        responseField out.response "status" = Json.str "ERROR")) ∧
    (∀ (importer : String → String → Except PyErr GwHandler) (elapsedMs : Int)
       (n rj pj : String),
       responseField (executeHandler importer elapsedMs n rj pj).response "status" =
           Json.str "SUCCESS" ∨
       responseField (executeHandler importer elapsedMs n rj pj).response "status" =
           Json.str "ERROR") :=
  claim_C1 (fun _ _ => Except.ok ⟨fun _ => none, fun _ _ => Except.ok (Json.obj []), none⟩)
    (Json.obj []) [] (by decide) (by decide)
    (by
      intro m c hd hres req props gs hexec hkey
      injection hres with h
      subst h
      injection hexec with h2
      injection h2 with h3
      subst h3
      exact absurd hkey (by decide))

/-- C9: requestId propagation into gateway ERROR responses.  When the
request body fails to parse, the ERROR response carries requestId
"unknown"; when it parses to a dict, every ERROR response produced by the
dispatch carries the dict's requestId field (or "unknown" when absent). -/
theorem claim_C9 (importer : String → String → Except PyErr GwHandler)
    (elapsedMs : Int) (n rj pj : String) :
    (loads rj = none →
       responseField (executeHandler importer elapsedMs n rj pj).response "requestId" =
         Json.str "unknown") ∧
    (∀ reqFields, loads rj = some (Json.obj reqFields) →
       responseField (executeHandler importer elapsedMs n rj pj).response "status" =
         Json.str "ERROR" →
       responseField (executeHandler importer elapsedMs n rj pj).response "requestId" =
         pyGetD reqFields "requestId" (Json.str "unknown")) := by
  constructor
  · intro hl
    simp only [executeHandler, hl]
    rfl
  · intro reqFields hl hstat
    cases hp : (if pj = "" then some (Json.obj []) else loads pj) with
    | none =>
      simp only [executeHandler, hl, hp]
      rfl
    | some ap =>
      cases hlc : loadClass importer n with
      | error e =>
        simp only [executeHandler, hl, hp, hlc]
        rfl
      | ok cls =>
        cases hsc : cls.startCheck reqFields with
        | some e =>
          cases hse : cls.stopErr with
          | some e2 => simp only [executeHandler, hl, hp, hlc, hsc, hse]; rfl
          | none => simp only [executeHandler, hl, hp, hlc, hsc, hse]; rfl
        | none =>
          cases hcomp : cls.compute reqFields with
          | ok result =>
            have hcomp2 : cls.compute ((dgStart reqFields).request.getD []) =
                Except.ok result := hcomp
            cases hse : cls.stopErr with
            | none =>
              exfalso
              have hsucc : responseField
                  (executeHandler importer elapsedMs n rj pj).response "status" =
                  Json.str "SUCCESS" := by
                simp only [executeHandler, hl, hp, hlc, hsc, hse, dgExecute, hcomp2]
                rfl
              rw [hsucc] at hstat
              injection hstat with h
              exact absurd h (by decide)
            | some e2 =>
              simp only [executeHandler, hl, hp, hlc, hsc, hse, dgExecute, hcomp2]
              rfl
          | error e =>
            have hcomp2 : cls.compute ((dgStart reqFields).request.getD []) =
                Except.error e := hcomp
            cases hse : cls.stopErr with
            | none =>
              simp only [executeHandler, hl, hp, hlc, hsc, hse, dgExecute, hcomp2]
              rfl
            | some e2 =>
              simp only [executeHandler, hl, hp, hlc, hsc, hse, dgExecute, hcomp2]
              rfl

/-- C9 witness: a failing import with a parsed request carrying requestId
r42, and an unparsable request body. -/
theorem claim_C9_witness :
    responseField (executeHandler (fun _ _ => Except.error ⟨"ImportError", "nope"⟩)
        3 "mod.Cls" "\x7b\"requestId\": \"r42\"\x7d" "").response "requestId" =
      pyGetD [("requestId", Json.str "r42")] "requestId" (Json.str "unknown") ∧
    responseField (executeHandler (fun _ _ => Except.error ⟨"ImportError", "nope"⟩)
        3 "mod.Cls" "not json" "").response "requestId" = Json.str "unknown" :=
  ⟨(claim_C9 (fun _ _ => Except.error ⟨"ImportError", "nope"⟩)
      3 "mod.Cls" "\x7b\"requestId\": \"r42\"\x7d" "").2
      [("requestId", Json.str "r42")] rfl rfl,
   (claim_C9 (fun _ _ => Except.error ⟨"ImportError", "nope"⟩)
      3 "mod.Cls" "not json" "").1 rfl⟩

/-- C10: DGHandler.stop sets status STOPPED unconditionally; consequently,
for handlers that inherit stop, every dispatch that constructed the
instance leaves it with final status STOPPED, and the FAILED status set by
execute when compute raises is overwritten by the subsequent stop call. -/
theorem claim_C10 :
    (∀ st : HState, (dgStop st).status = HandlerStatus.STOPPED) ∧
    (∀ (importer : String → String → Except PyErr GwHandler) (elapsedMs : Int)
       (n rj pj : String),
       (∀ cls, loadClass importer n = Except.ok cls → cls.stopErr = none) →
       ∀ st, (executeHandler importer elapsedMs n rj pj).finalState = some st →
       st.status = HandlerStatus.STOPPED) ∧
    (∀ (cls : GwHandler) (elapsedMs : Int) (reqFields : List (String × Json)) (e : PyErr),
       cls.compute reqFields = Except.error e →
       (dgExecute cls elapsedMs (dgStart reqFields)).1.status = HandlerStatus.FAILED ∧
       (dgStop (dgExecute cls elapsedMs (dgStart reqFields)).1).status =
         HandlerStatus.STOPPED) := by
  refine ⟨fun st => rfl, ?_, ?_⟩
  · intro importer elapsedMs n rj pj hstop st hfinal
    cases hl : loads rj with
    | none =>
      simp only [executeHandler, hl] at hfinal
      exact Option.noConfusion hfinal
    | some rd =>
      cases hp : (if pj = "" then some (Json.obj []) else loads pj) with
      | none =>
        simp only [executeHandler, hl, hp] at hfinal
        exact Option.noConfusion hfinal
      | some ap =>
        cases rd with
        | obj reqFields =>
          cases hlc : loadClass importer n with
          | error e =>
            simp only [executeHandler, hl, hp, hlc] at hfinal
            exact Option.noConfusion hfinal
          | ok cls =>
            have hse := hstop cls hlc
            cases hsc : cls.startCheck reqFields with
            | some e =>
              simp only [executeHandler, hl, hp, hlc, hsc, hse] at hfinal
              injection hfinal with h
              rw [← h]
              rfl
            | none =>
              cases hcomp : cls.compute reqFields with
              | ok result =>
                have hcomp2 : cls.compute ((dgStart reqFields).request.getD []) =
                    Except.ok result := hcomp
                simp only [executeHandler, hl, hp, hlc, hsc, hse, dgExecute, hcomp2] at hfinal
                injection hfinal with h
                rw [← h]
                rfl
              | error e =>
                have hcomp2 : cls.compute ((dgStart reqFields).request.getD []) =
                    Except.error e := hcomp
                simp only [executeHandler, hl, hp, hlc, hsc, hse, dgExecute, hcomp2] at hfinal
                injection hfinal with h
                rw [← h]
                rfl
        | null =>
          simp only [executeHandler, hl, hp] at hfinal
          exact Option.noConfusion hfinal
        | bool b =>
          simp only [executeHandler, hl, hp] at hfinal
          exact Option.noConfusion hfinal
        | num m =>
          simp only [executeHandler, hl, hp] at hfinal
          exact Option.noConfusion hfinal
        | str s =>
          simp only [executeHandler, hl, hp] at hfinal
          exact Option.noConfusion hfinal
        | arr xs =>
          simp only [executeHandler, hl, hp] at hfinal
          exact Option.noConfusion hfinal
  · intro cls elapsedMs reqFields e hcomp
    have hcomp2 : cls.compute ((dgStart reqFields).request.getD []) =
        Except.error e := hcomp
    constructor
    · simp only [dgExecute, hcomp2]
    · simp only [dgExecute, hcomp2, dgStop]

/-- C10 witness: a dispatch whose compute raises, plus dgStop on a FAILED
state. -/
theorem claim_C10_witness :
    (dgStop ⟨HandlerStatus.FAILED, none⟩).status = HandlerStatus.STOPPED ∧
    HState.status ⟨HandlerStatus.STOPPED, some []⟩ = HandlerStatus.STOPPED ∧
    ((dgExecute ⟨"T", fun _ => none, fun _ => Except.error ⟨"ValueError", "v"⟩, none⟩ 3
        (dgStart [])).1.status = HandlerStatus.FAILED ∧
     (dgStop (dgExecute ⟨"T", fun _ => none, fun _ => Except.error ⟨"ValueError", "v"⟩, none⟩ 3
        (dgStart [])).1).status = HandlerStatus.STOPPED) :=
  ⟨claim_C10.1 ⟨HandlerStatus.FAILED, none⟩,
   claim_C10.2.1
     (fun _ _ => Except.ok ⟨"T", fun _ => none, fun _ => Except.ok (Json.num 1), none⟩)
     3 "mod.Cls" "\x7b\x7d" ""
     (by
       intro cls h
       injection h with hh
       rw [← hh])
     ⟨HandlerStatus.STOPPED, some []⟩ rfl,
   claim_C10.2.2 ⟨"T", fun _ => none, fun _ => Except.error ⟨"ValueError", "v"⟩, none⟩ 3 []
     ⟨"ValueError", "v"⟩ rfl⟩

/-- C2 (counterexample): two violations of the claim.  First, when handler
resolution raises, the worker's finally-block invokes cleanup() on an
unbound local, so cleanup runs zero times, not once (the outcome records
cleanupCount 0).  Second, in the gateway, a stop() that raises on the
success path is caught by the outer except-clause, which replaces the
already-built SUCCESS response with an ERROR response and invokes stop a
second time (stopCount 2). -/
theorem claim_C2_counterexample :
    handle_execute (fun _ _ => Except.error ⟨"ImportError", "boom"⟩) (Json.obj []) [] =
      Except.ok ⟨workerErrorResponse (Json.str "") (Json.str "") ⟨"ImportError", "boom"⟩, 0⟩ ∧
    (executeHandler
        (fun _ _ => Except.ok ⟨"T", fun _ => none, fun _ => Except.ok (Json.num 1),
          some ⟨"RuntimeError", "stop failed"⟩⟩)
        5 "mod.Cls" "\x7b\"requestId\": \"r1\"\x7d" "").stopCount = 2 ∧
    responseField (executeHandler
        (fun _ _ => Except.ok ⟨"T", fun _ => none, fun _ => Except.ok (Json.num 1),
          some ⟨"RuntimeError", "stop failed"⟩⟩)
        5 "mod.Cls" "\x7b\"requestId\": \"r1\"\x7d" "").response "status" = Json.str "ERROR" :=
  ⟨rfl, rfl, rfl⟩

/-- C2 (amended): in the worker, cleanup runs exactly once per dispatch in
which handler resolution succeeded, zero times when resolution raises, and
a raising cleanup is swallowed without altering the outcome.  In the
gateway, stop runs exactly once per dispatch that constructed the handler
instance provided stop itself does not raise; a stop that raises on the
success path yields two stop invocations and converts the response to
ERROR. -/
theorem claim_C2 :
    (∀ (resolver : Json → Json → Except PyErr WorkerHandler) (appProperties : Json)
       (data : List (String × Json)) (request config : Json) (hd : WorkerHandler),
       pyLoads (pyGetD data "request_json" (Json.str "\x7b\x7d")) = Except.ok request →
       pyLoads (pyGetD data "config_json" (Json.str "\x7b\x7d")) = Except.ok config →
       resolver (pyGetD data "handler_module" (Json.str ""))
         (pyGetD data "handler_class" (Json.str "")) = Except.ok hd →
       ∃ resp, handle_execute resolver appProperties data = Except.ok ⟨resp, 1⟩) ∧
    (∀ (resolver : Json → Json → Except PyErr WorkerHandler) (appProperties : Json)
       (data : List (String × Json)) (request config : Json) (e : PyErr),
       pyLoads (pyGetD data "request_json" (Json.str "\x7b\x7d")) = Except.ok request →
       pyLoads (pyGetD data "config_json" (Json.str "\x7b\x7d")) = Except.ok config →
       resolver (pyGetD data "handler_module" (Json.str ""))
         (pyGetD data "handler_class" (Json.str "")) = Except.error e →
       handle_execute resolver appProperties data =
         Except.ok ⟨workerErrorResponse (pyGetD data "handler_module" (Json.str ""))
           (pyGetD data "handler_class" (Json.str "")) e, 0⟩) ∧
    (∀ (resolver : Json → Json → Except PyErr WorkerHandler) (appProperties : Json)
       (data : List (String × Json)) (e2 : Option PyErr),
       handle_execute
         (fun m c => Except.map (fun hd => ⟨hd.constructErr, hd.executeFn, e2⟩)
           (resolver m c)) appProperties data =
         handle_execute resolver appProperties data) ∧
    (∀ (importer : String → String → Except PyErr GwHandler) (elapsedMs : Int)
       (n rj pj : String),
       (∀ cls, loadClass importer n = Except.ok cls → cls.stopErr = none) →
       ∀ st, (executeHandler importer elapsedMs n rj pj).finalState = some st →
       (executeHandler importer elapsedMs n rj pj).stopCount = 1) ∧
    (∀ (importer : String → String → Except PyErr GwHandler) (elapsedMs : Int)
       (n rj pj : String) (reqFields : List (String × Json)) (ap : Json)
       (cls : GwHandler) (e : PyErr),
       loads rj = some (Json.obj reqFields) →
       (if pj = "" then some (Json.obj []) else loads pj) = some ap →
       loadClass importer n = Except.ok cls →
       cls.stopErr = some e →
       cls.startCheck reqFields = none →
       (executeHandler importer elapsedMs n rj pj).stopCount = 2 ∧
       responseField (executeHandler importer elapsedMs n rj pj).response "status" =
         Json.str "ERROR") := by
  refine ⟨?_, ?_, ?_, ?_, ?_⟩
  · intro resolver appProperties data request config hd h1 h2 h3
    cases hcon : hd.constructErr config with
    | some e =>
      exact ⟨workerErrorResponse (pyGetD data "handler_module" (Json.str ""))
          (pyGetD data "handler_class" (Json.str "")) e,
        by simp only [handle_execute, h1, h2, h3, hcon]⟩
    | none =>
      cases hex : hd.executeFn request appProperties with
      | error e =>
        exact ⟨workerErrorResponse (pyGetD data "handler_module" (Json.str ""))
            (pyGetD data "handler_class" (Json.str "")) e,
          by simp only [handle_execute, h1, h2, h3, hcon, hex]⟩
      | ok result =>
        exact ⟨normalizeResult result,
          by simp only [handle_execute, h1, h2, h3, hcon, hex]⟩
  · intro resolver appProperties data request config e h1 h2 h3
    simp only [handle_execute, h1, h2, h3]
  · intro resolver appProperties data e2
    cases h1 : pyLoads (pyGetD data "request_json" (Json.str "\x7b\x7d")) with
    | error e => simp only [handle_execute, h1]
    | ok request =>
      cases h2 : pyLoads (pyGetD data "config_json" (Json.str "\x7b\x7d")) with
      | error e => simp only [handle_execute, h1, h2]
      | ok config =>
        cases h3 : resolver (pyGetD data "handler_module" (Json.str ""))
            (pyGetD data "handler_class" (Json.str "")) with
        | error e => simp only [handle_execute, h1, h2, h3, Except.map]
        | ok hd =>
          cases hcon : hd.constructErr config with
          | some e => simp only [handle_execute, h1, h2, h3, Except.map, hcon]
          | none =>
            cases hex : hd.executeFn request appProperties with
            | error e => simp only [handle_execute, h1, h2, h3, Except.map, hcon, hex]
            | ok result => simp only [handle_execute, h1, h2, h3, Except.map, hcon, hex]
  · intro importer elapsedMs n rj pj hstop st hfinal
    cases hl : loads rj with
    | none =>
      simp only [executeHandler, hl] at hfinal
      exact Option.noConfusion hfinal
    | some rd =>
      cases hp : (if pj = "" then some (Json.obj []) else loads pj) with
      | none =>
        simp only [executeHandler, hl, hp] at hfinal
        exact Option.noConfusion hfinal
      | some ap =>
        cases rd with
        | obj reqFields =>
          cases hlc : loadClass importer n with
          | error e =>
            simp only [executeHandler, hl, hp, hlc] at hfinal
            exact Option.noConfusion hfinal
          | ok cls =>
            have hse := hstop cls hlc
            cases hsc : cls.startCheck reqFields with
            | some e => simp only [executeHandler, hl, hp, hlc, hsc, hse]
            | none =>
              cases hcomp : cls.compute reqFields with
              | ok result =>
                have hcomp2 : cls.compute ((dgStart reqFields).request.getD []) =
                    Except.ok result := hcomp
                simp only [executeHandler, hl, hp, hlc, hsc, hse, dgExecute, hcomp2]
              | error e =>
                have hcomp2 : cls.compute ((dgStart reqFields).request.getD []) =
                    Except.error e := hcomp
                simp only [executeHandler, hl, hp, hlc, hsc, hse, dgExecute, hcomp2]
        | null =>
          simp only [executeHandler, hl, hp] at hfinal
          exact Option.noConfusion hfinal
        | bool b =>
          simp only [executeHandler, hl, hp] at hfinal
          exact Option.noConfusion hfinal
        | num m =>
          simp only [executeHandler, hl, hp] at hfinal
          exact Option.noConfusion hfinal
        | str s =>
          simp only [executeHandler, hl, hp] at hfinal
          exact Option.noConfusion hfinal
        | arr xs =>
          simp only [executeHandler, hl, hp] at hfinal
          exact Option.noConfusion hfinal
  · intro importer elapsedMs n rj pj reqFields ap cls e hl hp hlc hse hsc
    cases hcomp : cls.compute reqFields with
    | ok result =>
      have hcomp2 : cls.compute ((dgStart reqFields).request.getD []) =
          Except.ok result := hcomp
      constructor
      · simp only [executeHandler, hl, hp, hlc, hsc, hse, dgExecute, hcomp2]
      · simp only [executeHandler, hl, hp, hlc, hsc, hse, dgExecute, hcomp2]
        rfl
    | error e3 =>
      have hcomp2 : cls.compute ((dgStart reqFields).request.getD []) =
          Except.error e3 := hcomp
      constructor
      · simp only [executeHandler, hl, hp, hlc, hsc, hse, dgExecute, hcomp2]
      · simp only [executeHandler, hl, hp, hlc, hsc, hse, dgExecute, hcomp2]
        rfl

/-- C2 witness: each part of the amended claim at a concrete input. -/
theorem claim_C2_witness :
    (∃ resp, handle_execute
        (fun _ _ => Except.ok ⟨fun _ => none, fun _ _ => Except.ok (Json.obj []), none⟩)
        (Json.obj []) [] = Except.ok ⟨resp, 1⟩) ∧
    handle_execute (fun _ _ => Except.error ⟨"ImportError", "w"⟩) (Json.obj []) [] =
      Except.ok ⟨workerErrorResponse (pyGetD [] "handler_module" (Json.str ""))
        (pyGetD [] "handler_class" (Json.str "")) ⟨"ImportError", "w"⟩, 0⟩ ∧
    handle_execute
        (fun m c => Except.map
          (fun hd => ⟨hd.constructErr, hd.executeFn, some ⟨"X", "y"⟩⟩)
          ((fun _ _ => Except.ok (⟨fun _ => none, fun _ _ => Except.ok (Json.obj []), none⟩ :
              WorkerHandler)) m c))
        (Json.obj []) [] =
      handle_execute
        (fun _ _ => Except.ok ⟨fun _ => none, fun _ _ => Except.ok (Json.obj []), none⟩)
        (Json.obj []) [] ∧
    (executeHandler
        (fun _ _ => Except.ok ⟨"T", fun _ => none, fun _ => Except.ok (Json.num 1), none⟩)
        3 "mod.Cls" "\x7b\x7d" "").stopCount = 1 ∧
    ((executeHandler
        (fun _ _ => Except.ok ⟨"T", fun _ => none, fun _ => Except.ok (Json.num 1),
          some ⟨"RuntimeError", "sf"⟩⟩)
        3 "mod.Cls" "\x7b\x7d" "").stopCount = 2 ∧
     responseField (executeHandler
        (fun _ _ => Except.ok ⟨"T", fun _ => none, fun _ => Except.ok (Json.num 1),
          some ⟨"RuntimeError", "sf"⟩⟩)
        3 "mod.Cls" "\x7b\x7d" "").response "status" = Json.str "ERROR") :=
  ⟨claim_C2.1 (fun _ _ => Except.ok ⟨fun _ => none, fun _ _ => Except.ok (Json.obj []), none⟩)
     (Json.obj []) [] (Json.obj []) (Json.obj [])
     ⟨fun _ => none, fun _ _ => Except.ok (Json.obj []), none⟩ rfl rfl rfl,
   claim_C2.2.1 (fun _ _ => Except.error ⟨"ImportError", "w"⟩) (Json.obj []) []
     (Json.obj []) (Json.obj []) ⟨"ImportError", "w"⟩ rfl rfl rfl,
   claim_C2.2.2.1
     (fun _ _ => Except.ok ⟨fun _ => none, fun _ _ => Except.ok (Json.obj []), none⟩)
     (Json.obj []) [] (some ⟨"X", "y"⟩),
   claim_C2.2.2.2.1
     (fun _ _ => Except.ok ⟨"T", fun _ => none, fun _ => Except.ok (Json.num 1), none⟩)
     3 "mod.Cls" "\x7b\x7d" ""
     (by
       intro cls h
       injection h with hh
       rw [← hh])
     ⟨HandlerStatus.STOPPED, some []⟩ rfl,
   claim_C2.2.2.2.2
     (fun _ _ => Except.ok ⟨"T", fun _ => none, fun _ => Except.ok (Json.num 1),
       some ⟨"RuntimeError", "sf"⟩⟩)
     3 "mod.Cls" "\x7b\x7d" "" [] (Json.obj [])
     ⟨"T", fun _ => none, fun _ => Except.ok (Json.num 1), some ⟨"RuntimeError", "sf"⟩⟩
     ⟨"RuntimeError", "sf"⟩ rfl rfl rfl rfl rfl⟩

set_option maxRecDepth 32768 in
/-- C3 (counterexample): the SHA256 operation on the empty string produces
the standard 64-character digest ending in b855, which is not the
63-character value printed in the claim (the final 5 is missing there). -/
theorem claim_C3_counterexample :
    responseField (transformSha256 "") "hash" =
      Json.str "e3b0c44298fc1c149afbf4c8996fb92427ae41e4649b934ca495991b7852b855" ∧
    Json.str "e3b0c44298fc1c149afbf4c8996fb92427ae41e4649b934ca495991b7852b855" ≠
      Json.str "e3b0c44298fc1c149afbf4c8996fb92427ae41e4649b934ca495991b7852b85" := by
  constructor
  · rfl
  · intro h
    injection h with h2
    exact absurd h2 (by decide)

set_option maxRecDepth 32768 in
/-- C3 (amended): the SHA256 transform operation is deterministic (it is a
function of the input text alone), always produces a 64-character hex
digest, reported as the hash field of its result dict, and hashing the
empty string yields
e3b0c44298fc1c149afbf4c8996fb92427ae41e4649b934ca495991b7852b855. -/
theorem claim_C3 (text : String) :
    (sha256Hex (utf8Encode text)).length = 64 ∧
    responseField (transformSha256 text) "hash" = Json.str (sha256Hex (utf8Encode text)) ∧
    responseField (transformSha256 "") "hash" =
      Json.str "e3b0c44298fc1c149afbf4c8996fb92427ae41e4649b934ca495991b7852b855" :=
  ⟨sha256Hex_length (utf8Encode text), rfl, rfl⟩

/-- C4 (code bug): on the nested input data = a maps-to (b maps-to 1), the
JSON_FLATTEN operation does not produce one entry per leaf with dot-joined
keys: the recursive call merges the wrapper dict (keys flattened/keyCount)
into the accumulating items, so the output has the wrapper nested inside
flattened and reports keyCount 2 instead of the single leaf entry a.b. -/
theorem claim_C4 :
    json_flatten [("a", Json.obj [("b", Json.num 1)])] "" =
      Json.obj [("flattened",
                  Json.obj [("flattened", Json.obj [("a.b", Json.num 1)]),
                            ("keyCount", Json.num 1)]),
                ("keyCount", Json.num 2)] ∧
    json_flatten [("a", Json.obj [("b", Json.num 1)])] "" ≠
      Json.obj [("flattened", Json.obj [("a.b", Json.num 1)]), ("keyCount", Json.num 1)] := by
  constructor
  · rfl
  · intro h
    have h2 : Json.num 2 = Json.num 1 :=
      congrArg (fun j => responseField j "keyCount") h
    injection h2 with h3
    exact absurd h3 (by decide)

/-- C5: a frame whose declared 4-byte length is zero or above the 50 MiB
cap is rejected by read_message independently of whatever follows the
prefix (no payload byte is consumed), and handle_connection then sends no
response frame and returns to the accept loop (the connection is closed by
its finally-block in either case).  A negative length cannot occur: the
prefix is decoded unsigned. -/
theorem claim_C5 (v : Nat) (rest : List Nat) (now : String) (workerId : Int)
    (resolver : Json → Json → Except PyErr WorkerHandler) (appProperties : Json)
    (hv : v < 4294967296) (hbad : v = 0 ∨ v > 52428800) :
    read_message (pack32 v ++ rest) = ReadResult.eof ∧
    handle_connection now workerId resolver appProperties (pack32 v ++ rest) = ([], true) := by
  have hread : read_message (pack32 v ++ rest) = ReadResult.eof := by
    unfold pack32
    simp only [List.cons_append, List.nil_append]
    simp only [read_message]
    rw [unpack32_pack32 v hv, if_pos hbad]
  refine ⟨hread, ?_⟩
  unfold handle_connection
  rw [hread]

/-- C5 witness: the oversized length of the spec example (104857600). -/
theorem claim_C5_witness :
    read_message (pack32 104857600 ++ [1, 2, 3]) = ReadResult.eof ∧
    handle_connection "t0" 0 (fun _ _ => Except.error ⟨"ImportError", "x"⟩) (Json.obj [])
      (pack32 104857600 ++ [1, 2, 3]) = ([], true) :=
  claim_C5 104857600 [1, 2, 3] "t0" 0 (fun _ _ => Except.error ⟨"ImportError", "x"⟩)
    (Json.obj []) (by decide) (by decide)

/-- C6: frame codec round-trip.  For a document whose json text
round-trips through the (modelled) stdlib codec and whose encoding is
nonempty and within the 50 MiB cap, decoding the bytes written by
write_message yields the same document. -/
theorem claim_C6 (m : Json)
    (hjson : loads (Json.dumps m) = some m)
    (h1 : 1 ≤ (Json.dumps m).length)
    (h2 : (Json.dumps m).length ≤ 52428800) :
    read_message (write_message m) = ReadResult.msg m := by
  unfold write_message
  have hlen : (strToBytes (Json.dumps m)).length = (Json.dumps m).length :=
    strToBytes_length (Json.dumps m)
  set payload := strToBytes (Json.dumps m) with hpay
  have hcap : payload.length < 4294967296 := by omega
  unfold read_message pack32
  simp only [List.cons_append, List.nil_append]
  rw [unpack32_pack32 payload.length hcap]
  have hcond : ¬ (payload.length = 0 ∨ payload.length > 52428800) := by omega
  simp only [hcond, if_false]
  rw [readChunks_exact payload payload.length (le_refl _), List.take_length]
  simp only [hpay]
  rw [bytesToStr_strToBytes, hjson]

/-- C6 witness: a concrete document through the round-trip. -/
theorem claim_C6_witness :
    read_message (write_message (Json.obj [("a", Json.num 1)])) =
      ReadResult.msg (Json.obj [("a", Json.num 1)]) :=
  claim_C6 (Json.obj [("a", Json.num 1)]) (by rfl) (by decide) (by decide)

/-- C7: the command router.  A ping envelope yields the pong payload with
the timestamp and worker identity; a shutdown envelope yields
shutdown_ack; an envelope whose command is none of ping, execute and
shutdown yields an ERROR response whose error_message names the
unrecognized command. -/
theorem claim_C7 (now : String) (workerId : Int)
    (resolver : Json → Json → Except PyErr WorkerHandler) (appProperties : Json)
    (fs : List (String × Json)) :
    (jsonEqStr (pyGetD fs "command" (Json.str "")) "ping" = true →
       handle_request now workerId resolver appProperties (Json.obj fs) =
         Except.ok (Json.obj [("status", Json.str "pong"), ("timestamp", Json.str now),
                              ("worker_id", Json.num workerId)])) ∧
    (jsonEqStr (pyGetD fs "command" (Json.str "")) "shutdown" = true →
       handle_request now workerId resolver appProperties (Json.obj fs) =
         Except.ok (Json.obj [("status", Json.str "shutdown_ack")])) ∧
    (jsonEqStr (pyGetD fs "command" (Json.str "")) "ping" = false →
     jsonEqStr (pyGetD fs "command" (Json.str "")) "execute" = false →
     jsonEqStr (pyGetD fs "command" (Json.str "")) "shutdown" = false →
       handle_request now workerId resolver appProperties (Json.obj fs) =
         Except.ok (Json.obj [("status", Json.str "ERROR"),
           ("error_message",
            Json.str ("Unknown command: " ++ pyStr (pyGetD fs "command" (Json.str ""))))])) := by
  refine ⟨?_, ?_, ?_⟩
  · intro h
    simp only [handle_request]
    rw [h]
    rfl
  · intro h
    have hcmd : pyGetD fs "command" (Json.str "") = Json.str "shutdown" := by
      cases hval : pyGetD fs "command" (Json.str "") with
      | str s =>
        rw [hval] at h
        simp [jsonEqStr] at h
        rw [h]
      | null => rw [hval] at h; simp [jsonEqStr] at h
      | bool b => rw [hval] at h; simp [jsonEqStr] at h
      | num n => rw [hval] at h; simp [jsonEqStr] at h
      | arr xs => rw [hval] at h; simp [jsonEqStr] at h
      | obj ofs => rw [hval] at h; simp [jsonEqStr] at h
    simp only [handle_request]
    rw [hcmd]
    rfl
  · intro h1 h2 h3
    simp only [handle_request]
    rw [h1, h2, h3]
    rfl

/-- C7 witness: an unrecognized command, a ping and a shutdown. -/
theorem claim_C7_witness :
    handle_request "t0" 7 (fun _ _ => Except.error ⟨"ImportError", "x"⟩) (Json.obj [])
      (Json.obj [("command", Json.str "frobnicate")]) =
      Except.ok (Json.obj [("status", Json.str "ERROR"),
        ("error_message", Json.str ("Unknown command: " ++
          pyStr (pyGetD [("command", Json.str "frobnicate")] "command" (Json.str ""))))]) ∧
    handle_request "t0" 7 (fun _ _ => Except.error ⟨"ImportError", "x"⟩) (Json.obj [])
      (Json.obj [("command", Json.str "ping")]) =
      Except.ok (Json.obj [("status", Json.str "pong"), ("timestamp", Json.str "t0"),
                           ("worker_id", Json.num 7)]) ∧
    handle_request "t0" 7 (fun _ _ => Except.error ⟨"ImportError", "x"⟩) (Json.obj [])
      (Json.obj [("command", Json.str "shutdown")]) =
      Except.ok (Json.obj [("status", Json.str "shutdown_ack")]) :=
  ⟨(claim_C7 "t0" 7 (fun _ _ => Except.error ⟨"ImportError", "x"⟩) (Json.obj [])
      [("command", Json.str "frobnicate")]).2.2 (by decide) (by decide) (by decide),
   (claim_C7 "t0" 7 (fun _ _ => Except.error ⟨"ImportError", "x"⟩) (Json.obj [])
      [("command", Json.str "ping")]).1 (by decide),
   (claim_C7 "t0" 7 (fun _ _ => Except.error ⟨"ImportError", "x"⟩) (Json.obj [])
      [("command", Json.str "shutdown")]).2.1 (by decide)⟩

/-- C8: the defaulting step of the worker execute path.  A missing status
key is set to SUCCESS; a present status key keeps its value; a missing data
key is set to the empty map exactly when the (possibly defaulted) status
equals SUCCESS; every key present in the handler result keeps its value;
and on a successful dispatch the returned response is precisely the
defaulted handler result. -/
theorem claim_C8 (fs : List (String × Json)) (d : Json) :
    (pyHasKey fs "status" = false →
       pyGetD (normalizeDict fs) "status" d = Json.str "SUCCESS") ∧
    (pyHasKey fs "status" = true →
       pyGetD (normalizeDict fs) "status" d = pyGetD fs "status" d) ∧
    (pyHasKey fs "data" = false →
       jsonEqStr (pyGetD (normalizeDict fs) "status" Json.null) "SUCCESS" = true →
       pyGetD (normalizeDict fs) "data" d = Json.obj []) ∧
    (∀ k, pyHasKey fs k = true → pyGetD (normalizeDict fs) k d = pyGetD fs k d) ∧
    (∀ (resolver : Json → Json → Except PyErr WorkerHandler) (appProperties : Json)
       (data : List (String × Json)) (request config : Json) (hd : WorkerHandler),
       pyLoads (pyGetD data "request_json" (Json.str "\x7b\x7d")) = Except.ok request →
       pyLoads (pyGetD data "config_json" (Json.str "\x7b\x7d")) = Except.ok config →
       resolver (pyGetD data "handler_module" (Json.str ""))
         (pyGetD data "handler_class" (Json.str "")) = Except.ok hd →
       hd.constructErr config = none →
       hd.executeFn request appProperties = Except.ok (Json.obj fs) →
       handle_execute resolver appProperties data =
         Except.ok ⟨Json.obj (normalizeDict fs), 1⟩) := by
  refine ⟨fun h => normalizeDict_status_default fs d h,
          fun h => normalizeDict_getD_of_hasKey fs "status" d h,
          fun h1 h2 => normalizeDict_data_default fs d h1 h2,
          fun k h => normalizeDict_getD_of_hasKey fs k d h,
          ?_⟩
  intro resolver appProperties data request config hd h1 h2 h3 h4 h5
  simp only [handle_execute, h1, h2, h3, h4, h5, normalizeResult]

/-- C8 witness: a handler result with neither status nor data key. -/
theorem claim_C8_witness :
    pyGetD (normalizeDict [("x", Json.num 1)]) "status" Json.null = Json.str "SUCCESS" ∧
    pyGetD (normalizeDict [("x", Json.num 1)]) "data" Json.null = Json.obj [] ∧
    pyGetD (normalizeDict [("x", Json.num 1)]) "x" Json.null = Json.num 1 ∧
    handle_execute
      (fun _ _ => Except.ok ⟨fun _ => none,
        fun _ _ => Except.ok (Json.obj [("x", Json.num 1)]), none⟩)
      (Json.obj []) [] =
      Except.ok ⟨Json.obj (normalizeDict [("x", Json.num 1)]), 1⟩ :=
  ⟨(claim_C8 [("x", Json.num 1)] Json.null).1 (by decide),
   (claim_C8 [("x", Json.num 1)] Json.null).2.2.1 (by decide) (by decide),
   (claim_C8 [("x", Json.num 1)] Json.null).2.2.2.1 "x" (by decide),
   (claim_C8 [("x", Json.num 1)] Json.null).2.2.2.2
     (fun _ _ => Except.ok ⟨fun _ => none,
       fun _ _ => Except.ok (Json.obj [("x", Json.num 1)]), none⟩)
     (Json.obj []) [] (Json.obj []) (Json.obj [])
     ⟨fun _ => none, fun _ _ => Except.ok (Json.obj [("x", Json.num 1)]), none⟩
     rfl rfl rfl rfl rfl⟩

end DGFacade
